import Mathlib

/-!
Verification development for the custom-allocator repository
(`my_allocator::detail::Arena`, `MyMapAllocator<T, Policy>` — the final
policy/shared-state variant — and the allocator-aware `MyContainer`).

The C++ is shallowly embedded: machine integers (`std::size_t`) are
modelled as `Nat` with an explicit `% 2 ^ 64` at every operation where the
source can wrap; pointers are abstract `Nat` addresses; `std::shared_ptr`
identity is modelled by indices into an explicit `World` of allocator
states and arenas; fallible calls return `Except`.
-/

set_option maxRecDepth 4096

/-- Size of the `std::size_t` value space: all size arithmetic in the
source is unsigned 64-bit and wraps modulo this constant. -/
def W : Nat := 2 ^ 64

/-- Failure modes of the embedded code.  `allocationExceeded` is the
`std::bad_alloc` thrown by the Fixed-policy ceiling check;
`invalidAlignment` is the `std::invalid_argument` thrown by
`Arena::allocate_bytes`; `stuck` marks an execution of the arena
allocation loop whose retry on a freshly appended block fails (in the
source the loop would keep appending blocks without ever succeeding);
`nullDeref` marks a dereference of a moved-from (null) `shared_ptr`. -/
inductive AllocError where
  | allocationExceeded
  | invalidAlignment
  | stuck
  | nullDeref
  deriving DecidableEq

/-- Model of `Arena::Block`: one contiguous buffer.  `base` is the abstract address
returned by `operator new(cap)`, `used` and `capacity` are the byte
counters of the source struct. -/
structure Block where
  base : Nat
  used : Nat
  capacity : Nat
  deriving DecidableEq

/-- Round `p` up to the next multiple of `a`.  For a power-of-two `a`
this is exactly the `(__intptr - 1 + __align) & -__align` computation
performed by `std::align`. -/
def alignUp (p a : Nat) : Nat := (p + a - 1) / a * a

/-- Model of `std::align(alignment, size, ptr, space)` (libstdc++ semantics): fail
if `space < size`; otherwise bump `ptr` up to `alignUp ptr alignment` and
fail if that bump does not fit in `space - size`; on success return the
aligned pointer and the space reduced by the bump. -/
def stdAlign (alignment size ptr space : Nat) : Option (Nat × Nat) :=
  if space < size then none
  else if space - size < alignUp ptr alignment - ptr then none
  else some (alignUp ptr alignment, space - (alignUp ptr alignment - ptr))

/-- One bump-allocation attempt on a block, as in the loop body of
`Arena::allocate_bytes`: `ptr = buffer + used`, `space = capacity - used`;
on success `used = capacity - space + size`. -/
def Block.tryBump (b : Block) (size alignment : Nat) : Option (Nat × Block) :=
  match stdAlign alignment size (b.base + b.used) (b.capacity - b.used) with
  | none => none
  | some (p, space) => some (p, ⟨b.base, b.capacity - space + size, b.capacity⟩)

/-- The guard of `Arena::allocate_bytes`:
`alignment == 0 || (alignment & (alignment - 1)) != 0`. -/
def badAlignment (alignment : Nat) : Bool :=
  alignment == 0 || (alignment &&& (alignment - 1)) != 0

/-- Capacity of a newly appended block:
`std::max(block_size, size + alignment)`, with the `size_t` sum wrapping. -/
def newBlockCap (block_size size alignment : Nat) : Nat :=
  max block_size ((size + alignment) % W)

/-- Model of `my_allocator::detail::Arena` (identical to the top-level
`Arena.h`/`Arena.cpp` pair): an append-only sequence of blocks plus the
default block size.  The newest block is kept at the head of the list
(the source keeps a vector and allocates from `blocks.back()`). -/
structure Arena where
  blocks : List Block
  block_size : Nat
  deriving DecidableEq

/-- Model of `Arena::allocate_bytes(size, alignment)`.  `newBase` is the address
the system allocator hands to the appended block, an input of the model.
The source runs an unbounded `for(;;)` loop; the spec promises the loop
appends at most one block, so the model performs the first attempt and
the single retry on a fresh block; executions on which that retry fails
are reported as `.stuck` (at the claims' inputs the retry fails because
the fresh capacity is below `size`, which does not depend on the block's
base address, so the source loop would keep appending blocks of the same
capacity without ever succeeding). -/
def Arena.allocate_bytes (a : Arena) (size alignment newBase : Nat) :
    Except AllocError Nat × Arena :=
  if badAlignment alignment then (.error .invalidAlignment, a)
  else
    match a.blocks with
    | [] => (.error .stuck, a)
    | b :: rest =>
      match b.tryBump size alignment with
      | some (p, b') => (.ok p, ⟨b' :: rest, a.block_size⟩)
      | none =>
        match Block.tryBump ⟨newBase, 0, newBlockCap a.block_size size alignment⟩
            size alignment with
        | some (p, nb') => (.ok p, ⟨nb' :: b :: rest, a.block_size⟩)
        | none =>
          (.error .stuck,
           ⟨⟨newBase, 0, newBlockCap a.block_size size alignment⟩ :: b :: rest,
            a.block_size⟩)

/-! ### Alignment arithmetic -/

theorem le_alignUp (p a : Nat) (ha : 0 < a) : p ≤ alignUp p a := by
  unfold alignUp
  have hdm := Nat.div_add_mod (p + a - 1) a
  have hlt : (p + a - 1) % a < a := Nat.mod_lt _ ha
  rw [Nat.mul_comm]
  generalize hx : a * ((p + a - 1) / a) = x at hdm ⊢
  omega

theorem alignUp_le (p a : Nat) : alignUp p a ≤ p + a - 1 := by
  unfold alignUp
  exact Nat.div_mul_le_self _ _

theorem alignUp_mod (p a : Nat) : alignUp p a % a = 0 := by
  unfold alignUp
  exact Nat.mul_mod_left _ _

/-- A successful `tryBump` returns a pointer aligned to `alignment` and
keeps the block's base and capacity. -/
theorem tryBump_aligned (b : Block) (size alignment p : Nat) (b' : Block)
    (h : b.tryBump size alignment = some (p, b')) :
    p % alignment = 0 ∧ b'.base = b.base ∧ b'.capacity = b.capacity := by
  unfold Block.tryBump stdAlign at h
  by_cases h1 : b.capacity - b.used < size
  · rw [if_pos h1] at h; simp at h
  · rw [if_neg h1] at h
    by_cases h2 : b.capacity - b.used - size <
        alignUp (b.base + b.used) alignment - (b.base + b.used)
    · rw [if_pos h2] at h; simp at h
    · rw [if_neg h2] at h
      simp only [Option.some.injEq, Prod.mk.injEq] at h
      obtain ⟨hp, hb⟩ := h
      subst hp hb
      exact ⟨alignUp_mod _ _, rfl, rfl⟩

/-- A `tryBump` always succeeds on a fresh block whose capacity is at least
`size + alignment`. -/
theorem tryBump_fresh_ok (size alignment base cap : Nat) (ha : 0 < alignment)
    (hcap : size + alignment ≤ cap) :
    ∃ p b', Block.tryBump ⟨base, 0, cap⟩ size alignment = some (p, b') := by
  unfold Block.tryBump stdAlign
  have hup := alignUp_le (base + 0) alignment
  have hlo := le_alignUp (base + 0) alignment ha
  have h1 : ¬ cap - 0 < size := by omega
  rw [if_neg h1]
  have h2 : ¬ cap - 0 - size < alignUp (base + 0) alignment - (base + 0) := by omega
  rw [if_neg h2]
  exact ⟨_, _, rfl⟩

/-- From `badAlignment alignment = false` the alignment is nonzero. -/
theorem badAlignment_pos (alignment : Nat) (h : badAlignment alignment = false) :
    0 < alignment := by
  rcases Nat.eq_zero_or_pos alignment with h0 | h0
  · subst h0; simp [badAlignment] at h
  · exact h0

/-- Main success lemma for `Arena::allocate_bytes`: when the alignment
passes the power-of-two guard and `size + alignment` does not wrap in
`size_t`, the call succeeds (the retry on the appended block is
guaranteed to fit), returns an aligned pointer, appends at most one
block, and leaves `block_size` unchanged. -/
theorem allocate_bytes_ok (a : Arena) (size alignment newBase : Nat)
    (hba : badAlignment alignment = false) (hw : size + alignment < W)
    (hne : a.blocks ≠ []) :
    ∃ p a', a.allocate_bytes size alignment newBase = (.ok p, a') ∧
      p % alignment = 0 ∧ a'.blocks.length ≤ a.blocks.length + 1 ∧
      a'.blocks ≠ [] ∧ a'.block_size = a.block_size := by
  have ha : 0 < alignment := badAlignment_pos _ hba
  obtain ⟨b, rest, hbl⟩ : ∃ b rest, a.blocks = b :: rest := by
    cases hb : a.blocks with
    | nil => exact absurd hb hne
    | cons x xs => exact ⟨x, xs, rfl⟩
  rcases htb : b.tryBump size alignment with _ | ⟨p, b'⟩
  · -- the current block fails; the appended block is big enough
    have hcap : size + alignment ≤ newBlockCap a.block_size size alignment := by
      have hmod : (size + alignment) % W = size + alignment := Nat.mod_eq_of_lt hw
      unfold newBlockCap
      omega
    obtain ⟨p, nb', hnb⟩ := tryBump_fresh_ok size alignment newBase
      (newBlockCap a.block_size size alignment) ha hcap
    refine ⟨p, ⟨nb' :: b :: rest, a.block_size⟩, ?_,
      (tryBump_aligned _ size alignment p nb' hnb).1, by simp [hbl], by simp, rfl⟩
    simp only [Arena.allocate_bytes, hba, Bool.false_eq_true, if_false, hbl, htb, hnb]
  · refine ⟨p, ⟨b' :: rest, a.block_size⟩, ?_,
      (tryBump_aligned b size alignment p b' htb).1, by simp [hbl], by simp, rfl⟩
    simp only [Arena.allocate_bytes, hba, Bool.false_eq_true, if_false, hbl, htb]

/-- An `Arena::allocate_bytes` call never reports the Fixed-policy ceiling error
and never dereferences a null handle: its only failures are
`invalidAlignment` and `stuck`. -/
theorem allocate_bytes_errors (a : Arena) (size alignment newBase : Nat) :
    (a.allocate_bytes size alignment newBase).1 ≠ .error .allocationExceeded ∧
    (a.allocate_bytes size alignment newBase).1 ≠ .error .nullDeref := by
  unfold Arena.allocate_bytes
  split
  · simp
  · split
    · simp
    · split
      · simp
      · split
        · simp
        · simp

/-- The `block_size` field is read-only in `Arena::allocate_bytes`. -/
theorem allocate_bytes_block_size (a : Arena) (size alignment newBase : Nat) :
    ((a.allocate_bytes size alignment newBase).2).block_size = a.block_size := by
  unfold Arena.allocate_bytes
  split
  · rfl
  · split
    · rfl
    · split
      · rfl
      · split
        · rfl
        · rfl

/-! ### Shared allocator state and the allocator handle

`MyMapAllocator<T, Policy>` (the final variant): a handle holds a
`shared_ptr<AllocatorState>` and a `shared_ptr<Arena>`.  Shared-pointer
identity is modelled by indices into a `World` that owns every state and
arena created so far; copying or rebinding a handle copies the indices,
so both handles address the same mutable record, exactly as the source's
`shared_ptr` copies do. -/

/-- Model of `my_allocator::detail::AllocatorState`. -/
structure AllocatorState where
  max_elements : Nat
  allocated : Nat
  deriving DecidableEq

/-- One `MyMapAllocator<T, Policy>` object.  `policyMax` is the
compile-time `Policy::max`; `elemSize`/`elemAlign` are `sizeof(T)` and
`alignof(T)`; `stateRef`/`arenaRef` are the two shared pointers (`none`
models a moved-from null `shared_ptr`). -/
structure MyMapAllocator where
  policyMax : Nat
  elemSize : Nat
  elemAlign : Nat
  stateRef : Option Nat
  arenaRef : Option Nat
  deriving DecidableEq

/-- The heap of shared allocator states and arenas, plus a supply of
fresh block addresses for `operator new`. -/
structure World where
  states : List AllocatorState
  arenas : List Arena
  freshBase : Nat
  deriving DecidableEq

/-- A capacity policy value: `policy::Fixed<Max, Initial>` has
`max = Max`, `initial = Initial`; `policy::Expandable<Initial>` has
`max = 0`, `initial = Initial`. -/
structure Policy where
  max : Nat
  initial : Nat
  deriving DecidableEq

/-- Model of `my_allocator::policy::Fixed<M, I>` (the source defaults `I` to `M`). -/
def policyFixed (M I : Nat) : Policy := ⟨M, I⟩

/-- Model of `my_allocator::policy::Expandable<I>`. -/
def policyExpandable (I : Nat) : Policy := ⟨0, I⟩

/-- The default constructor `MyMapAllocator()`: builds the shared state
(`AllocatorState(MaxElements)` when `Policy::max > 0`, default otherwise)
and an `Arena(Policy::initial * sizeof(T))`, both appended to the world;
the handle records the indices of the freshly created pair. -/
def MyMapAllocator.create (w : World) (p : Policy) (sz al : Nat) :
    MyMapAllocator × World :=
  (⟨p.max, sz, al, some w.states.length, some w.arenas.length⟩,
   ⟨w.states ++ [if p.max > 0 then ⟨p.max, 0⟩ else ⟨0, 0⟩],
    w.arenas ++ [⟨[⟨w.freshBase, 0, (p.initial * sz) % W⟩], (p.initial * sz) % W⟩],
    w.freshBase + (p.initial * sz) % W⟩)

/-- The implicitly defaulted copy constructor: copies both shared
pointers. -/
def MyMapAllocator.copy (h : MyMapAllocator) : MyMapAllocator := h

/-- The converting (rebind) constructor
`MyMapAllocator(const MyMapAllocator<U, Policy>&)`: shares state and
arena with the source handle; only the bound element type (its size and
alignment) changes. -/
def MyMapAllocator.rebind (h : MyMapAllocator) (sz al : Nat) : MyMapAllocator :=
  ⟨h.policyMax, sz, al, h.stateRef, h.arenaRef⟩

/-- Model of `operator==`: `arena_ == other.arena_`, i.e. shared-pointer identity
of the arenas. -/
def MyMapAllocator.opEq (h1 h2 : MyMapAllocator) : Bool :=
  h1.arenaRef == h2.arenaRef

/-- The implicitly defaulted move constructor / move assignment of the
handle: the target receives both shared pointers and the moved-from
handle is left with null shared pointers (`std::shared_ptr` move
semantics). -/
def MyMapAllocator.moved (h : MyMapAllocator) : MyMapAllocator × MyMapAllocator :=
  (h, ⟨h.policyMax, h.elemSize, h.elemAlign, none, none⟩)

/-- Model of `MyMapAllocator::allocate(n)`: in Fixed mode
(`if constexpr (MaxElements != 0)`) check
`state_->allocated_ + n > state_->max_elements_` (a wrapping `size_t`
sum) and throw `bad_alloc` if it holds; otherwise call
`arena_->allocate_bytes(n * sizeof(T), alignof(T))` and, on success, do
`state_->allocated_ += n`.  The world hands the arena a fresh block base
and advances its address supply. -/
def MyMapAllocator.allocate (w : World) (h : MyMapAllocator) (n : Nat) :
    Except AllocError Nat × World :=
  match h.stateRef with
  | none => (.error .nullDeref, w)
  | some si =>
    match w.states[si]? with
    | none => (.error .nullDeref, w)
    | some st =>
      if h.policyMax ≠ 0 ∧ (st.allocated + n) % W > st.max_elements then
        (.error .allocationExceeded, w)
      else
        match h.arenaRef with
        | none => (.error .nullDeref, w)
        | some ai =>
          match w.arenas[ai]? with
          | none => (.error .nullDeref, w)
          | some ar =>
            match ar.allocate_bytes ((n * h.elemSize) % W) h.elemAlign w.freshBase with
            | (.error e, ar') =>
              (.error e,
               ⟨w.states, w.arenas.set ai ar',
                w.freshBase + newBlockCap ar.block_size ((n * h.elemSize) % W) h.elemAlign⟩)
            | (.ok ptr, ar') =>
              (.ok ptr,
               ⟨w.states.set si ⟨st.max_elements, (st.allocated + n) % W⟩,
                w.arenas.set ai ar',
                w.freshBase + newBlockCap ar.block_size ((n * h.elemSize) % W) h.elemAlign⟩)

/-- Model of `MyMapAllocator::deallocate(T*, std::size_t)`: the source body is
empty (`noexcept {}`), so the model returns the world untouched and has
no error channel at all. -/
def MyMapAllocator.deallocate (w : World) (_h : MyMapAllocator) (_p _n : Nat) : World := w

/-- The `AllocatorState` a handle currently addresses. -/
def stateOf (w : World) (h : MyMapAllocator) : Option AllocatorState :=
  match h.stateRef with
  | some si => w.states[si]?
  | none => none

/-- The `Arena` a handle currently addresses. -/
def arenaOf (w : World) (h : MyMapAllocator) : Option Arena :=
  match h.arenaRef with
  | some ai => w.arenas[ai]?
  | none => none

/-- Fixed-mode allocation driver: `k` successive `allocate(1)` calls
through the same handle, stopping at the first failure. -/
def allocRepeat (h : MyMapAllocator) : Nat → World → Except AllocError World
  | 0, w => .ok w
  | k + 1, w =>
    match MyMapAllocator.allocate w h 1 with
    | (.ok _, w') => allocRepeat h k w'
    | (.error e, _) => .error e


/-! ### Characterizations of `MyMapAllocator::allocate` -/

/-- Calls to `Arena::allocate_bytes` can only fail with `invalidAlignment` or
`stuck`: it never reports the Fixed-policy ceiling error or a null
dereference. -/
theorem allocate_bytes_error_kinds (a : Arena) (size alignment newBase : Nat)
    (e : AllocError) (a' : Arena)
    (h : a.allocate_bytes size alignment newBase = (.error e, a')) :
    e = .invalidAlignment ∨ e = .stuck := by
  unfold Arena.allocate_bytes at h
  split at h
  · left
    simp only [Prod.mk.injEq, Except.error.injEq] at h
    exact h.1.symm
  · split at h
    · right
      simp only [Prod.mk.injEq, Except.error.injEq] at h
      exact h.1.symm
    · split at h
      · simp at h
      · split at h
        · simp at h
        · right
          simp only [Prod.mk.injEq, Except.error.injEq] at h
          exact h.1.symm

/-- The ceiling branch: with a readable state, a Fixed-mode request whose
wrapped sum exceeds the ceiling throws before anything is touched. -/
theorem allocate_ceiling_fail (w : World) (h : MyMapAllocator) (n si : Nat)
    (st : AllocatorState) (hsi : h.stateRef = some si)
    (hst : w.states[si]? = some st)
    (hc : h.policyMax ≠ 0 ∧ (st.allocated + n) % W > st.max_elements) :
    MyMapAllocator.allocate w h n = (.error .allocationExceeded, w) := by
  simp only [MyMapAllocator.allocate, hsi, hst]
  rw [if_pos hc]

/-- When the ceiling check passes, the call never reports
`allocationExceeded` (the arena's own failures are different errors). -/
theorem allocate_not_exceeded (w : World) (h : MyMapAllocator) (n si : Nat)
    (st : AllocatorState) (hsi : h.stateRef = some si)
    (hst : w.states[si]? = some st)
    (hc : ¬(h.policyMax ≠ 0 ∧ (st.allocated + n) % W > st.max_elements)) :
    (MyMapAllocator.allocate w h n).1 ≠ .error .allocationExceeded := by
  simp only [MyMapAllocator.allocate, hsi, hst]
  rw [if_neg hc]
  split
  · simp
  · split
    · simp
    · split
      · rename_i hab
        rcases allocate_bytes_error_kinds _ _ _ _ _ _ hab with he | he <;> simp [he]
      · simp

/-- Inversion of a successful `allocate`: the ceiling check passed and
the shared state was advanced to the wrapped sum. -/
theorem allocate_ok_inv (w : World) (h : MyMapAllocator) (n p : Nat) (w' : World)
    (si : Nat) (st : AllocatorState) (hsi : h.stateRef = some si)
    (hst : w.states[si]? = some st)
    (halloc : MyMapAllocator.allocate w h n = (.ok p, w')) :
    ¬(h.policyMax ≠ 0 ∧ (st.allocated + n) % W > st.max_elements) ∧
    w'.states = w.states.set si ⟨st.max_elements, (st.allocated + n) % W⟩ := by
  simp only [MyMapAllocator.allocate, hsi, hst] at halloc
  by_cases hc : h.policyMax ≠ 0 ∧ (st.allocated + n) % W > st.max_elements
  · rw [if_pos hc] at halloc
    exact absurd halloc (by simp)
  · rw [if_neg hc] at halloc
    refine ⟨hc, ?_⟩
    split at halloc
    · exact absurd halloc (by simp)
    · split at halloc
      · exact absurd halloc (by simp)
      · split at halloc
        · exact absurd halloc (by simp)
        · simp only [Prod.mk.injEq, Except.ok.injEq] at halloc
          rw [← halloc.2]

/-- Success lemma: with valid references, a live arena, a sane element
layout and a passing ceiling check, `allocate` succeeds and produces
exactly the world with the shared counter advanced and the arena
replaced by its grown version. -/
theorem allocate_ok (w : World) (h : MyMapAllocator) (n si ai : Nat)
    (st : AllocatorState) (ar : Arena)
    (hsi : h.stateRef = some si) (hai : h.arenaRef = some ai)
    (hst : w.states[si]? = some st) (har : w.arenas[ai]? = some ar)
    (hne : ar.blocks ≠ [])
    (hba : badAlignment h.elemAlign = false)
    (hsz : (n * h.elemSize) % W + h.elemAlign < W)
    (hc : ¬(h.policyMax ≠ 0 ∧ (st.allocated + n) % W > st.max_elements)) :
    ∃ p ar', MyMapAllocator.allocate w h n =
      (.ok p,
       ⟨w.states.set si ⟨st.max_elements, (st.allocated + n) % W⟩,
        w.arenas.set ai ar',
        w.freshBase + newBlockCap ar.block_size ((n * h.elemSize) % W) h.elemAlign⟩) ∧
      ar'.blocks ≠ [] ∧ ar'.block_size = ar.block_size := by
  obtain ⟨p, ar', heq, _, _, hne', hbs⟩ :=
    allocate_bytes_ok ar ((n * h.elemSize) % W) h.elemAlign w.freshBase hba hsz hne
  refine ⟨p, ar', ?_, hne', hbs⟩
  simp only [MyMapAllocator.allocate, hsi, hst, hai, har, heq]
  rw [if_neg hc]

/-- The state record a handle reads is never re-keyed by `allocate`:
afterwards the handle reads either the old record (failure) or the
advanced record (success). -/
theorem allocate_state_after (w : World) (h : MyMapAllocator) (n si : Nat)
    (st : AllocatorState) (hsi : h.stateRef = some si)
    (hst : w.states[si]? = some st) :
    stateOf (MyMapAllocator.allocate w h n).2 h = some st ∨
    (¬(h.policyMax ≠ 0 ∧ (st.allocated + n) % W > st.max_elements) ∧
     stateOf (MyMapAllocator.allocate w h n).2 h =
       some ⟨st.max_elements, (st.allocated + n) % W⟩) := by
  have hlen : si < w.states.length := (List.getElem?_eq_some_iff.mp hst).1
  simp only [MyMapAllocator.allocate, hsi, hst]
  by_cases hc : h.policyMax ≠ 0 ∧ (st.allocated + n) % W > st.max_elements
  · rw [if_pos hc]
    left
    simpa [stateOf, hsi] using hst
  · rw [if_neg hc]
    split
    · left; simpa [stateOf, hsi] using hst
    · split
      · left; simpa [stateOf, hsi] using hst
      · split
        · left; simpa [stateOf, hsi] using hst
        · right
          refine ⟨hc, ?_⟩
          simp [stateOf, hsi, List.getElem?_set_self hlen]

/-! ### Fixed-mode invariant and the first-M-requests scenario -/

/-- Invariant of a live Fixed-mode handle: both references resolve, the
shared ceiling is `M`, the shared counter is `k`, and the arena has at
least one block (true from construction on). -/
def FixedInv (w : World) (h : MyMapAllocator) (M k : Nat) : Prop :=
  ∃ si ai st ar,
    h.stateRef = some si ∧ h.arenaRef = some ai ∧
    w.states[si]? = some st ∧ w.arenas[ai]? = some ar ∧
    st.max_elements = M ∧ st.allocated = k ∧ ar.blocks ≠ []

/-- One Fixed-mode `allocate(1)` below the ceiling succeeds and advances
the shared counter by one. -/
theorem fixedInv_step (w : World) (h : MyMapAllocator) (M k : Nat)
    (inv : FixedInv w h M k) (hk : k + 1 ≤ M) (hMW : M < W)
    (hba : badAlignment h.elemAlign = false)
    (hsz : h.elemSize + h.elemAlign < W) :
    ∃ p w', MyMapAllocator.allocate w h 1 = (.ok p, w') ∧ FixedInv w' h M (k + 1) := by
  obtain ⟨si, ai, st, ar, hsi, hai, hst, har, hmax, hall, hne⟩ := inv
  have hmod : (st.allocated + 1) % W = k + 1 := by
    rw [hall]; exact Nat.mod_eq_of_lt (by omega)
  have hc : ¬(h.policyMax ≠ 0 ∧ (st.allocated + 1) % W > st.max_elements) := by
    rw [hmod, hmax]
    intro hx
    exact absurd hx.2 (by omega)
  have hsz1 : (1 * h.elemSize) % W + h.elemAlign < W := by
    rw [Nat.one_mul, Nat.mod_eq_of_lt (by omega)]
    exact hsz
  obtain ⟨p, ar', heqn, hne', hbs⟩ :=
    allocate_ok w h 1 si ai st ar hsi hai hst har hne hba hsz1 hc
  refine ⟨p, _, heqn, si, ai, ⟨st.max_elements, (st.allocated + 1) % W⟩, ar',
    hsi, hai, ?_, ?_, hmax, by rw [hmod], hne'⟩
  · exact List.getElem?_set_self (List.getElem?_eq_some_iff.mp hst).1
  · exact List.getElem?_set_self (List.getElem?_eq_some_iff.mp har).1

/-- Any `k` single-element Fixed-mode requests from counter value `j` all
succeed as long as `j + k` stays within the ceiling. -/
theorem allocRepeat_ok (h : MyMapAllocator) (M : Nat) (hMW : M < W)
    (hba : badAlignment h.elemAlign = false)
    (hsz : h.elemSize + h.elemAlign < W) :
    ∀ k j w, FixedInv w h M j → j + k ≤ M →
      ∃ w', allocRepeat h k w = .ok w' ∧ FixedInv w' h M (j + k) := by
  intro k
  induction k with
  | zero => exact fun j w inv _ => ⟨w, rfl, inv⟩
  | succ k ih =>
    intro j w inv hjk
    obtain ⟨p, w1, heq, inv1⟩ := fixedInv_step w h M j inv (by omega) hMW hba hsz
    obtain ⟨w', hrep, inv'⟩ := ih (j + 1) w1 inv1 (by omega)
    refine ⟨w', ?_, by simpa [Nat.add_assoc, Nat.add_comm 1 k] using inv'⟩
    simp only [allocRepeat, heq]
    exact hrep

/-! ### List helpers -/

/-- Overwriting a list entry with an element of equal image leaves the
mapped list unchanged. -/
theorem map_set_eq {α β : Type} (f : α → β) (l : List α) (i : Nat) (x y : α)
    (hx : l[i]? = some x) (hf : f y = f x) : (l.set i y).map f = l.map f := by
  apply List.ext_getElem?
  intro n
  rw [List.getElem?_map, List.getElem?_map]
  by_cases hni : n = i
  · subst hni
    rw [List.getElem?_set_self (List.getElem?_eq_some_iff.mp hx).1, hx]
    simp [hf]
  · rw [List.getElem?_set_ne (fun hh => hni hh.symm)]

/-- An `allocate` call may grow an arena but never changes any arena's
`block_size` (the initial sizing is never renegotiated), and it never
adds or removes arenas. -/
theorem allocate_preserves_block_sizes (w : World) (h : MyMapAllocator) (n : Nat) :
    ((MyMapAllocator.allocate w h n).2.arenas.map Arena.block_size) =
      w.arenas.map Arena.block_size := by
  simp only [MyMapAllocator.allocate]
  split
  · rfl
  · split
    · rfl
    · split
      · rfl
      · split
        · rfl
        · split
          · rfl
          · rename_i ar har
            split
            · rename_i e ar2 hab
              have hbs := allocate_bytes_block_size ar ((n * h.elemSize) % W) h.elemAlign w.freshBase
              rw [hab] at hbs
              exact map_set_eq Arena.block_size w.arenas _ ar ar2 har hbs
            · rename_i p ar2 hab
              have hbs := allocate_bytes_block_size ar ((n * h.elemSize) % W) h.elemAlign w.freshBase
              rw [hab] at hbs
              exact map_set_eq Arena.block_size w.arenas _ ar ar2 har hbs

/-! ### The allocator-aware container

`MyContainer<T, Allocator>` is generic in its allocator.  The container
model is parameterized by the capability surface the container actually
uses through `std::allocator_traits`: equality, move behaviour of an
allocator value, node allocation/deallocation effects on a shared
allocator world `S`, and the propagation flags.  The container itself is
the list of values stored in the chain from `head_` to `tail_`, together
with the `size_` counter; `head_ == tail_ == sentinel` corresponds to an
empty list. -/

/-- The allocator capability surface consumed by `MyContainer`:
`beq` is `operator==`; `moveOf a` is the pair (move-constructed target,
residual moved-from value) produced by moving an allocator value;
`allocateNode`/`deallocateNode` are `allocate(alloc, 1)` and
`deallocate(alloc, p, 1)` on a node; `pocma`/`pocs` are the
`propagate_on_container_move_assignment` / `swap` flags. -/
structure AllocIface (A S : Type) where
  beq : A → A → Bool
  moveOf : A → A × A
  allocateNode : A → S → Except AllocError Unit × S
  deallocateNode : A → S → S
  pocma : Bool
  pocs : Bool

/-- Model of `MyContainer<T, Allocator>`: the rebound node allocator plus the
observable chain (values from head to tail) and the `size_` counter. -/
structure MyContainer (α A : Type) where
  node_alloc : A
  elems : List α
  size : Nat
  deriving DecidableEq

/-- Model of `push_back(v)`: `create_node` first (allocation may fail; the node is
constructed before any relinking), then link at the tail and increment
`size_`.  On failure the container is returned exactly as it was. -/
def MyContainer.push_back {α A S : Type} (I : AllocIface A S)
    (c : MyContainer α A) (s : S) (v : α) :
    Except AllocError Unit × MyContainer α A × S :=
  match I.allocateNode c.node_alloc s with
  | (.error e, s') => (.error e, c, s')
  | (.ok _, s') =>
    if c.elems.isEmpty then (.ok (), ⟨c.node_alloc, [v], c.size + 1⟩, s')
    else (.ok (), ⟨c.node_alloc, c.elems ++ [v], c.size + 1⟩, s')

/-- Model of `push_front(v)`: `create_node` first, then link at the head. -/
def MyContainer.push_front {α A S : Type} (I : AllocIface A S)
    (c : MyContainer α A) (s : S) (v : α) :
    Except AllocError Unit × MyContainer α A × S :=
  match I.allocateNode c.node_alloc s with
  | (.error e, s') => (.error e, c, s')
  | (.ok _, s') =>
    if c.elems.isEmpty then (.ok (), ⟨c.node_alloc, [v], c.size + 1⟩, s')
    else (.ok (), ⟨c.node_alloc, v :: c.elems, c.size + 1⟩, s')

/-- Model of `pop_front()`: no-op on empty; otherwise unlink the head node,
destroy and deallocate it, decrement `size_`. -/
def MyContainer.pop_front {α A S : Type} (I : AllocIface A S)
    (c : MyContainer α A) (s : S) : MyContainer α A × S :=
  match c.elems with
  | [] => (c, s)
  | _ :: rest => (⟨c.node_alloc, rest, c.size - 1⟩, I.deallocateNode c.node_alloc s)

/-- The `while (!empty()) pop_front();` loop of `clear()`, walking the
chain: destroys every node (one `deallocateNode` each) and decrements
`size_` once per node. -/
def MyContainer.clearLoop {α A S : Type} (I : AllocIface A S) (a : A) :
    List α → Nat → S → Nat × S
  | [], size, s => (size, s)
  | _ :: rest, size, s => MyContainer.clearLoop I a rest (size - 1) (I.deallocateNode a s)

/-- Model of `clear()`. -/
def MyContainer.clear {α A S : Type} (I : AllocIface A S)
    (c : MyContainer α A) (s : S) : MyContainer α A × S :=
  ((⟨c.node_alloc, [], (MyContainer.clearLoop I c.node_alloc c.elems c.size s).1⟩ :
      MyContainer α A),
   (MyContainer.clearLoop I c.node_alloc c.elems c.size s).2)

/-- Model of `for (auto& v : other) push_back(std::move(v));` — the element-wise
loop of the slow move paths, stopping at the first allocation failure
(inside the `noexcept` move constructor such a failure would call
`std::terminate`; the model surfaces it as the error). -/
def pushBackAll {α A S : Type} (I : AllocIface A S)
    (c : MyContainer α A) (s : S) :
    List α → Except AllocError Unit × MyContainer α A × S
  | [] => (.ok (), c, s)
  | v :: vs =>
    match MyContainer.push_back I c s v with
    | (.ok _, c', s') => pushBackAll I c' s' vs
    | (.error e, c', s') => (.error e, c', s')

/-- The move constructor `MyContainer(MyContainer&& other)`: move the
allocator value, then compare the new value against what is left in
`other`; if equal, steal `head_`/`tail_`/`size_` and reset `other` to
the canonical empty state; otherwise `push_back(std::move(v))` each
element and `other.clear()`. -/
def MyContainer.moveCtor {α A S : Type} (I : AllocIface A S)
    (other : MyContainer α A) (s : S) :
    Except AllocError Unit × MyContainer α A × MyContainer α A × S :=
  if I.beq (I.moveOf other.node_alloc).1 (I.moveOf other.node_alloc).2 then
    (.ok (), ⟨(I.moveOf other.node_alloc).1, other.elems, other.size⟩,
     ⟨(I.moveOf other.node_alloc).2, [], 0⟩, s)
  else
    match pushBackAll I ⟨(I.moveOf other.node_alloc).1, [], 0⟩ s other.elems with
    | (.ok _, dest, s') =>
      (.ok (), dest,
       (MyContainer.clear I ⟨(I.moveOf other.node_alloc).2, other.elems, other.size⟩ s').1,
       (MyContainer.clear I ⟨(I.moveOf other.node_alloc).2, other.elems, other.size⟩ s').2)
    | (.error e, dest, s') =>
      (.error e, dest, ⟨(I.moveOf other.node_alloc).2, other.elems, other.size⟩, s')

/-- The move assignment `operator=(MyContainer&&)`: `clear()` first; if
`propagate_on_container_move_assignment` is set, move the allocator and
steal the pointers unconditionally; otherwise steal only when the two
allocators compare equal, and fall back to the element-wise move plus
`other.clear()` when they do not.  (The `this == &other` early return is
invisible in a value model.) -/
def MyContainer.moveAssign {α A S : Type} (I : AllocIface A S)
    (dst other : MyContainer α A) (s : S) :
    Except AllocError Unit × MyContainer α A × MyContainer α A × S :=
  if I.pocma then
    (.ok (), ⟨(I.moveOf other.node_alloc).1, other.elems, other.size⟩,
     ⟨(I.moveOf other.node_alloc).2, [], 0⟩, (MyContainer.clear I dst s).2)
  else if I.beq dst.node_alloc other.node_alloc then
    (.ok (), ⟨dst.node_alloc, other.elems, other.size⟩,
     ⟨other.node_alloc, [], 0⟩, (MyContainer.clear I dst s).2)
  else
    match pushBackAll I (MyContainer.clear I dst s).1 (MyContainer.clear I dst s).2
        other.elems with
    | (.ok _, dst', s') =>
      (.ok (), dst',
       (MyContainer.clear I other s').1,
       (MyContainer.clear I other s').2)
    | (.error e, dst', s') => (.error e, dst', other, s')

/-- Model of `swap(MyContainer&)`: with the propagation flag set, swap the
allocator values and the three pointers; without it, swap the pointers
only when the allocators compare equal, and otherwise hit
`assert(false && "Swapping containers with unequal allocators is
undefined")` — modelled as `none` (fail fast, nothing exchanged). -/
def MyContainer.swap {α A S : Type} (I : AllocIface A S)
    (c1 c2 : MyContainer α A) :
    Option (MyContainer α A × MyContainer α A) :=
  if I.pocs then
    some (⟨c2.node_alloc, c2.elems, c2.size⟩, ⟨c1.node_alloc, c1.elems, c1.size⟩)
  else if I.beq c1.node_alloc c2.node_alloc then
    some (⟨c1.node_alloc, c2.elems, c2.size⟩, ⟨c2.node_alloc, c1.elems, c1.size⟩)
  else
    none

/-- The capability surface of the repository's own allocator,
`MyMapAllocator<Node, Policy>`: identity equality on the shared arena,
`shared_ptr`-nulling move, `allocate(1)` per node, no-op deallocation,
and all propagation flags set (`std::true_type` in the source). -/
def myIface : AllocIface MyMapAllocator World where
  beq := MyMapAllocator.opEq
  moveOf := MyMapAllocator.moved
  allocateNode := fun h w =>
    ((MyMapAllocator.allocate w h 1).1.map fun _ => (),
     (MyMapAllocator.allocate w h 1).2)
  deallocateNode := fun h w => MyMapAllocator.deallocate w h 0 1
  pocma := true
  pocs := true

/-- A minimal conforming allocator used to exercise the generic
container paths the repository allocator cannot reach (for example
non-propagating swap, as with a stateful allocator whose move preserves
the value): allocator values are plain tags, the world counts
allocations, moves preserve the value (as for
`std::pmr::polymorphic_allocator`). -/
def natIface (pocma pocs : Bool) : AllocIface Nat Nat where
  beq := fun a b => a == b
  moveOf := fun a => (a, a)
  allocateNode := fun _ s => (.ok (), s + 1)
  deallocateNode := fun _ s => s
  pocma := pocma
  pocs := pocs

/-- A successful `pushBackAll` appends exactly the pushed values, adds
their count to `size_`, keeps the allocator, and performs one node
allocation per element. -/
theorem pushBackAll_ok_shape {α A S : Type} (I : AllocIface A S) :
    ∀ (vs : List α) (c : MyContainer α A) (s : S) (u : Unit)
      (c' : MyContainer α A) (s' : S),
      pushBackAll I c s vs = (.ok u, c', s') →
      c'.elems = c.elems ++ vs ∧ c'.size = c.size + vs.length ∧
      c'.node_alloc = c.node_alloc := by
  intro vs
  induction vs with
  | nil =>
    intro c s u c' s' hp
    simp only [pushBackAll] at hp
    simp only [Prod.mk.injEq] at hp
    rw [← hp.2.1]
    simp
  | cons v vs ih =>
    intro c s u c' s' hp
    simp only [pushBackAll] at hp
    match hpb : MyContainer.push_back I c s v with
    | (.error e, c1, s1) =>
      rw [hpb] at hp
      simp at hp
    | (.ok u1, c1, s1) =>
      rw [hpb] at hp
      have hc1 : c1.elems = c.elems ++ [v] ∧ c1.size = c.size + 1 ∧
          c1.node_alloc = c.node_alloc := by
        simp only [MyContainer.push_back] at hpb
        split at hpb
        · simp at hpb
        · split at hpb
          · rename_i hemp
            simp only [Prod.mk.injEq] at hpb
            rw [← hpb.2.1]
            simp [List.isEmpty_iff.mp hemp]
          · simp only [Prod.mk.injEq] at hpb
            rw [← hpb.2.1]
            exact ⟨rfl, rfl, rfl⟩
      obtain ⟨h1, h2, h3⟩ := ih c1 s1 u1 c' s' hp
      refine ⟨?_, ?_, ?_⟩
      · rw [h1, hc1.1]; simp
      · rw [h2, hc1.2.1]; simp only [List.length_cons]; omega
      · rw [h3, hc1.2.2]

/-! ### Claims -/

/-- Claim C4 (amended): for every `Arena::allocate_bytes(size, alignment)`
call with a power-of-two alignment, provided `size + alignment` does not
wrap in `size_t`: if the aligned region does not fit in the current
block, a new block of capacity `max(default_block_size, size + alignment)`
is appended and the retry on it always succeeds — so the loop appends at
most one block, terminates, and returns a pointer aligned to the
requested alignment. -/
theorem C4_arena_growth (a : Arena) (size alignment newBase : Nat)
    (hba : badAlignment alignment = false) (hw : size + alignment < W)
    (hne : a.blocks ≠ []) :
    ∃ p a', a.allocate_bytes size alignment newBase = (.ok p, a') ∧
      p % alignment = 0 ∧ a'.blocks.length ≤ a.blocks.length + 1 := by
  obtain ⟨p, a', h1, h2, h3, _, _⟩ :=
    allocate_bytes_ok a size alignment newBase hba hw hne
  exact ⟨p, a', h1, h2, h3⟩

/-- Witness for C4: a concrete 8-byte arena serving a 16-byte request at
alignment 8 grows by one block and returns an aligned pointer. -/
theorem C4_arena_growth_witness :
    ∃ p a', Arena.allocate_bytes ⟨[⟨0, 0, 8⟩], 8⟩ 16 8 40 = (.ok p, a') ∧
      p % 8 = 0 ∧ a'.blocks.length ≤ 2 :=
  C4_arena_growth ⟨[⟨0, 0, 8⟩], 8⟩ 16 8 40 (by decide) (by decide) (by decide)

/-- Counterexample to C4 as stated: at `size = 2^64 - 1`, `alignment = 1`
the appended block's capacity is `max(8, (size + alignment) mod 2^64) =
max(8, 0) = 8 < size`, so the retry on the freshly appended block fails —
the appended-block capacity computation wraps in `size_t` and the source
loop would keep appending 8-byte blocks forever instead of appending at
most one block and succeeding.  The model returns `.stuck` with the
uselessly appended block in place. -/
theorem C4_append_wrap_cex :
    badAlignment 1 = false ∧ W ≤ (W - 1) + 1 ∧
    Arena.allocate_bytes ⟨[⟨0, 0, 8⟩], 8⟩ (W - 1) 1 100 =
      (.error .stuck, ⟨[⟨100, 0, 8⟩, ⟨0, 0, 8⟩], 8⟩) := by
  exact ⟨by decide, by decide, rfl⟩

/-- Claim C7: `deallocate(pointer, n)` is a guaranteed no-op: it is total
(no error channel at all, mirroring the empty `noexcept` body), never
decrements the shared `allocated_` counter, and never returns memory to
the arena — every component of the world (all allocator states, all
arenas, the address supply) is returned unchanged. -/
theorem C7_deallocate_noop (w : World) (h : MyMapAllocator) (p n : Nat) :
    MyMapAllocator.deallocate w h p n = w ∧
    (MyMapAllocator.deallocate w h p n).states = w.states ∧
    (MyMapAllocator.deallocate w h p n).arenas = w.arenas ∧
    (MyMapAllocator.deallocate w h p n).freshBase = w.freshBase :=
  ⟨rfl, rfl, rfl, rfl⟩

/-- Claim C9 (amended): at construction the allocator sizes its arena as
`Policy::initial * sizeof(T)` (with `Initial` defaulting to `Max` for
`policy::Fixed`, so the default Fixed instantiation gives
`max_elements * sizeof(T)`, and `policy::Expandable` gives
`initial_elements * sizeof(T)`); the sizing is fixed at construction:
no later operation ever changes any arena's `block_size`. -/
theorem C9_arena_sizing (w : World) (p : Policy) (sz al : Nat)
    (h2 : MyMapAllocator) (pp nn n : Nat) :
    ((MyMapAllocator.create w p sz al).2.arenas =
      w.arenas ++ [⟨[⟨w.freshBase, 0, (p.initial * sz) % W⟩], (p.initial * sz) % W⟩])
    ∧ ((MyMapAllocator.create w (policyFixed n n) sz al).2.arenas =
      w.arenas ++ [⟨[⟨w.freshBase, 0, (n * sz) % W⟩], (n * sz) % W⟩])
    ∧ ((MyMapAllocator.create w (policyExpandable n) sz al).2.arenas =
      w.arenas ++ [⟨[⟨w.freshBase, 0, (n * sz) % W⟩], (n * sz) % W⟩])
    ∧ (((MyMapAllocator.allocate w h2 nn).2.arenas.map Arena.block_size) =
      w.arenas.map Arena.block_size)
    ∧ ((MyMapAllocator.deallocate w h2 pp nn).arenas = w.arenas) :=
  ⟨rfl, rfl, rfl, allocate_preserves_block_sizes w h2 nn, rfl⟩

/-- Counterexample to C9 as stated: a Fixed policy with `Max = 6` but
`Initial = 3` and `sizeof(T) = 4` creates its arena with
`Initial * sizeof(T) = 12` bytes, not `max_elements * element_size = 24`
bytes. -/
theorem C9_fixed_initial_cex :
    ((MyMapAllocator.create ⟨[], [], 0⟩ (policyFixed 6 3) 4 4).2.arenas.map
        Arena.block_size = [12])
    ∧ (policyFixed 6 3).max * 4 = 24 ∧ (12 : Nat) ≠ 24 := by
  decide

/-- Construction used by the C10 claim: a `Fixed<6>` allocator for a
one-byte, one-aligned element type, with one element already granted. -/
def c10cr : MyMapAllocator × World :=
  MyMapAllocator.create ⟨[], [], 0⟩ (policyFixed 6 6) 1 1

/-- One successful `allocate(1)` through the C10 handle. -/
def c10r1 : Except AllocError Nat × World :=
  MyMapAllocator.allocate c10cr.2 c10cr.1 1

/-- The wrapping request `allocate(2^64 - 1)` through the C10 handle. -/
def c10r2 : Except AllocError Nat × World :=
  MyMapAllocator.allocate c10r1.2 c10cr.1 (W - 1)

/-- Claim C10: the Fixed-mode ceiling check computes
`allocated_ + n` in wrapping `size_t` arithmetic: with `allocated = 1`
and `n = 2^64 - 1` the wrapped sum is `0 ≤ max_elements`, so the check
does not trigger even though `n` alone exceeds the ceiling, and
`allocate` proceeds to the arena (which is visibly modified by the
attempt: a block is appended). -/
theorem C10_wrap_ceiling_check :
    stateOf c10r1.2 c10cr.1 = some ⟨6, 1⟩
    ∧ 6 < W - 1
    ∧ (1 + (W - 1)) % W = 0
    ∧ c10r2.1 = .error .stuck
    ∧ AllocError.stuck ≠ AllocError.allocationExceeded
    ∧ (c10r2.2.arenas.map fun a => a.blocks.length) = [2]
    ∧ (c10r1.2.arenas.map fun a => a.blocks.length) = [1] := by
  refine ⟨rfl, by decide, by decide, rfl, by decide, rfl, rfl⟩

/-- Construction used by the C1 counterexample: the same reachable
`Fixed<6>` configuration as C10. -/
def c1cr : MyMapAllocator × World :=
  MyMapAllocator.create ⟨[], [], 0⟩ (policyFixed 6 6) 1 1

/-- One successful `allocate(1)` through the C1 handle. -/
def c1r1 : Except AllocError Nat × World :=
  MyMapAllocator.allocate c1cr.2 c1cr.1 1

/-- Counterexample to C1 as stated: with ceiling `M = 6` and
`allocated = 1`, the request `n = 2^64 - 1` makes `allocated + n`
exceed `M`, yet the call does not fail with AllocationExceeded — the
wrapped `size_t` sum passes the check and the failure comes from the
arena attempt instead (and that attempt also mutates the arena, against
the claimed untouched-Arena consequence of a ceiling failure). -/
theorem C1_wrap_iff_cex :
    stateOf c1r1.2 c1cr.1 = some ⟨6, 1⟩
    ∧ 6 < 1 + (W - 1)
    ∧ (MyMapAllocator.allocate c1r1.2 c1cr.1 (W - 1)).1 = .error .stuck
    ∧ AllocError.stuck ≠ AllocError.allocationExceeded
    ∧ ((MyMapAllocator.allocate c1r1.2 c1cr.1 (W - 1)).2.arenas.map
        fun a => a.blocks.length) = [2] := by
  refine ⟨rfl, by decide, rfl, by decide, rfl⟩

/-- Claim C1 (amended): for a Fixed-policy allocator with ceiling
`M < 2^64 - 1` and shared counter `allocated`, `allocate(n)` fails with
AllocationExceeded exactly when the wrapping `size_t` sum
`(allocated + n) mod 2^64` exceeds `M` (for requests whose sum does not
wrap this is exactly `allocated + n > M`); on that failure nothing is
granted and the whole world — counter and Arena — is unchanged;
consequently the first `M` single-element requests all succeed, the
`(M+1)`-th fails with AllocationExceeded, and `allocated` never exceeds
`M`. -/
theorem C1_fixed_ceiling (w0 : World) (M I s a : Nat) (h : MyMapAllocator)
    (w : World)
    (hcr : MyMapAllocator.create w0 (policyFixed M I) s a = (h, w))
    (hM : M ≠ 0) (hMW : M + 1 < W)
    (hba : badAlignment a = false) (hsz : s + a < W)
    (n : Nat) (w1 : World) (st : AllocatorState)
    (hst : stateOf w1 h = some st) (hmax : st.max_elements = M) :
    (((MyMapAllocator.allocate w1 h n).1 = .error .allocationExceeded) ↔
       (st.allocated + n) % W > M)
    ∧ ((st.allocated + n) % W > M →
        MyMapAllocator.allocate w1 h n = (.error .allocationExceeded, w1))
    ∧ (∃ wM, allocRepeat h M w = .ok wM ∧
        (MyMapAllocator.allocate wM h 1).1 = .error .allocationExceeded)
    ∧ (∀ st', stateOf (MyMapAllocator.allocate w1 h n).2 h = some st' →
        st.allocated ≤ M → st'.allocated ≤ M ∧ st'.max_elements = M) := by
  have hpair := hcr
  simp only [MyMapAllocator.create, policyFixed, Prod.mk.injEq] at hpair
  obtain ⟨hh, hw⟩ := hpair
  have hsi : h.stateRef = some w0.states.length := by rw [← hh]
  have hpol : h.policyMax = M := by rw [← hh]
  have hsig : h.elemSize = s := by rw [← hh]
  have halg : h.elemAlign = a := by rw [← hh]
  have hst' : w1.states[w0.states.length]? = some st := by
    simpa [stateOf, hsi] using hst
  have hcond : ∀ m : Nat,
      (h.policyMax ≠ 0 ∧ (st.allocated + m) % W > st.max_elements) ↔
        (st.allocated + m) % W > M := by
    intro m
    rw [hpol, hmax]
    exact ⟨fun hx => hx.2, fun hx => ⟨hM, hx⟩⟩
  refine ⟨⟨?_, ?_⟩, ?_, ?_, ?_⟩
  · -- failure implies the wrapped sum exceeds the ceiling
    intro hfail
    by_contra hgt
    exact allocate_not_exceeded w1 h n _ st hsi hst'
      (fun hx => hgt ((hcond n).mp hx)) hfail
  · -- the wrapped sum exceeding the ceiling forces the failure
    intro hgt
    exact congrArg Prod.fst
      (allocate_ceiling_fail w1 h n _ st hsi hst' ((hcond n).mpr hgt))
  · intro hgt
    exact allocate_ceiling_fail w1 h n _ st hsi hst' ((hcond n).mpr hgt)
  · -- the first M single-element requests succeed, the next one fails
    have hinv0 : FixedInv w h M 0 := by
      refine ⟨w0.states.length, w0.arenas.length,
        ⟨M, 0⟩, ⟨[⟨w0.freshBase, 0, (I * s) % W⟩], (I * s) % W⟩,
        hsi, by rw [← hh], ?_, ?_, rfl, rfl, by simp⟩
      · rw [← hw, if_pos (Nat.pos_of_ne_zero hM)]
        exact List.getElem?_concat_length w0.states _
      · rw [← hw]
        exact List.getElem?_concat_length w0.arenas _
    obtain ⟨wM, hrep, invM⟩ := allocRepeat_ok h M (by omega)
      (by rw [halg]; exact hba) (by rw [hsig, halg]; exact hsz) M 0 w hinv0
      (by omega)
    refine ⟨wM, hrep, ?_⟩
    obtain ⟨si', ai', stM, arM, hsi2, hai2, hst2, har2, hmax2, hall2, hne2⟩ := invM
    have hc : h.policyMax ≠ 0 ∧ (stM.allocated + 1) % W > stM.max_elements := by
      rw [hpol, hmax2, hall2, Nat.zero_add, Nat.mod_eq_of_lt (by omega)]
      exact ⟨hM, by omega⟩
    rw [allocate_ceiling_fail wM h 1 si' stM hsi2 hst2 hc]
  · -- the counter never exceeds the ceiling
    intro st' hst2 hle
    rcases allocate_state_after w1 h n _ st hsi hst' with hsame | ⟨hc, hnew⟩
    · rw [hst2] at hsame
      obtain rfl : st' = st := by
        injection hsame
      exact ⟨hle, hmax⟩
    · rw [hst2] at hnew
      obtain rfl : st' = (⟨st.max_elements, (st.allocated + n) % W⟩ : AllocatorState) := by
        injection hnew
      have hle2 : (st.allocated + n) % W ≤ M := by
        by_contra hgt
        exact hc ((hcond n).mpr (by omega))
      exact ⟨hle2, hmax⟩

/-- Witness for C1 at the concrete ceiling `M = 2` (`sizeof(T) = 4`,
`alignof(T) = 4`): both single-element requests succeed and the third
fails with AllocationExceeded. -/
theorem C1_fixed_ceiling_witness :
    ∃ wM, allocRepeat ⟨2, 4, 4, some 0, some 0⟩ 2
        ⟨[⟨2, 0⟩], [⟨[⟨0, 0, 8⟩], 8⟩], 8⟩ = .ok wM ∧
      (MyMapAllocator.allocate wM ⟨2, 4, 4, some 0, some 0⟩ 1).1 =
        .error .allocationExceeded :=
  (C1_fixed_ceiling ⟨[], [], 0⟩ 2 2 4 4 _ _ rfl (by decide) (by decide)
    (by decide) (by decide) 1 ⟨[⟨2, 0⟩], [⟨[⟨0, 0, 8⟩], 8⟩], 8⟩ ⟨2, 0⟩ rfl rfl).2.2.1

/-- Claim C5: `operator==` is identity of the shared arena — copies and
rebinds of a handle compare equal to it (whatever the element type
bound), equality is exactly same-arena identity and ignores every policy
parameter, and a freshly constructed handle (with any policy values,
identical ones included) compares unequal to every handle whose arena
already lives in the world. -/
theorem C5_identity_equality (h h0 : MyMapAllocator) (sz al : Nat) (w : World)
    (p : Policy) (s2 a2 ai : Nat)
    (hvalid : h0.arenaRef = some ai) (hai : ai < w.arenas.length) :
    MyMapAllocator.opEq (MyMapAllocator.rebind h sz al) h = true
    ∧ MyMapAllocator.opEq (MyMapAllocator.copy h) h = true
    ∧ (∀ h1 h2 : MyMapAllocator,
        MyMapAllocator.opEq h1 h2 = true ↔ h1.arenaRef = h2.arenaRef)
    ∧ (∀ x sz2 al2, MyMapAllocator.opEq
        (⟨x, sz2, al2, h.stateRef, h.arenaRef⟩ : MyMapAllocator) h = true)
    ∧ MyMapAllocator.opEq (MyMapAllocator.create w p s2 a2).1 h0 = false
    ∧ MyMapAllocator.opEq h0 (MyMapAllocator.create w p s2 a2).1 = false := by
  refine ⟨?_, ?_, ?_, ?_, ?_, ?_⟩
  · simp [MyMapAllocator.opEq, MyMapAllocator.rebind]
  · simp [MyMapAllocator.opEq, MyMapAllocator.copy]
  · intro h1 h2
    simp [MyMapAllocator.opEq]
  · intro x sz2 al2
    simp [MyMapAllocator.opEq]
  · simp [MyMapAllocator.opEq, MyMapAllocator.create, hvalid]
    omega
  · simp [MyMapAllocator.opEq, MyMapAllocator.create, hvalid]
    omega

/-- Construction used by the C5 witness: two allocators created
independently with identical policy values. -/
def c5A : MyMapAllocator × World :=
  MyMapAllocator.create ⟨[], [], 0⟩ (policyFixed 6 6) 4 4

/-- Second, independent C5 allocator (same policy values as the first). -/
def c5B : MyMapAllocator × World :=
  MyMapAllocator.create c5A.2 (policyFixed 6 6) 4 4

/-- Witness for C5: the rebound and copied handles compare equal to their
origin while the independently constructed handle with identical policy
parameters compares unequal to it, in both directions. -/
theorem C5_identity_equality_witness :
    MyMapAllocator.opEq (MyMapAllocator.rebind c5A.1 16 8) c5A.1 = true
    ∧ MyMapAllocator.opEq (MyMapAllocator.copy c5A.1) c5A.1 = true
    ∧ MyMapAllocator.opEq c5B.1 c5A.1 = false
    ∧ MyMapAllocator.opEq c5A.1 c5B.1 = false :=
  ⟨(C5_identity_equality c5A.1 c5A.1 16 8 c5A.2 (policyFixed 6 6) 4 4 0 rfl
      (by decide)).1,
   (C5_identity_equality c5A.1 c5A.1 16 8 c5A.2 (policyFixed 6 6) 4 4 0 rfl
      (by decide)).2.1,
   (C5_identity_equality c5A.1 c5A.1 16 8 c5A.2 (policyFixed 6 6) 4 4 0 rfl
      (by decide)).2.2.2.2.1,
   (C5_identity_equality c5A.1 c5A.1 16 8 c5A.2 (policyFixed 6 6) 4 4 0 rfl
      (by decide)).2.2.2.2.2⟩

/-- Claim C2: copying and rebinding preserve both shared references, a
successful `allocate(n)` through a handle advances the one shared
counter by `n` (stated for non-wrapping sums) as observed through every
handle with the same state reference, and that grant constrains later
Fixed-mode allocations through every sharing handle: once the shared
counter plus a new request exceeds the shared ceiling, the sharing
handle's request fails with AllocationExceeded and changes nothing. -/
theorem C2_shared_state (h h2 : MyMapAllocator) (sz al : Nat) (w w' : World)
    (n p : Nat) (st : AllocatorState)
    (hst : stateOf w h = some st)
    (halloc : MyMapAllocator.allocate w h n = (.ok p, w'))
    (hshare : h2.stateRef = h.stateRef)
    (hnw : st.allocated + n < W) :
    ((MyMapAllocator.rebind h sz al).stateRef = h.stateRef
      ∧ (MyMapAllocator.rebind h sz al).arenaRef = h.arenaRef)
    ∧ ((MyMapAllocator.copy h).stateRef = h.stateRef
      ∧ (MyMapAllocator.copy h).arenaRef = h.arenaRef)
    ∧ stateOf w' h2 = some ⟨st.max_elements, st.allocated + n⟩
    ∧ (∀ n2, h2.policyMax ≠ 0 → st.allocated + n + n2 < W →
        st.allocated + n + n2 > st.max_elements →
        MyMapAllocator.allocate w' h2 n2 = (.error .allocationExceeded, w')) := by
  obtain ⟨si, hsi, hst'⟩ : ∃ si, h.stateRef = some si ∧ w.states[si]? = some st := by
    match hx : h.stateRef with
    | none => simp [stateOf, hx] at hst
    | some si =>
      refine ⟨si, rfl, ?_⟩
      simpa [stateOf, hx] using hst
  have hlen : si < w.states.length := (List.getElem?_eq_some_iff.mp hst').1
  obtain ⟨hc, hw'⟩ := allocate_ok_inv w h n p w' si st hsi hst' halloc
  have hst2 : w'.states[si]? =
      some ⟨st.max_elements, st.allocated + n⟩ := by
    rw [hw', Nat.mod_eq_of_lt hnw]
    exact List.getElem?_set_self hlen
  refine ⟨⟨rfl, rfl⟩, ⟨rfl, rfl⟩, ?_, ?_⟩
  · simp only [stateOf, hshare, hsi]
    exact hst2
  · intro n2 hpol hnw2 hgt
    refine allocate_ceiling_fail w' h2 n2 si _ (by rw [hshare, hsi]) hst2 ?_
    refine ⟨hpol, ?_⟩
    simpa [Nat.mod_eq_of_lt hnw2] using hgt

/-- Construction used by the C2 witness: a `Fixed<6>` element allocator,
its node rebind, and a second node handle obtained by copy + rebind. -/
def c2A : MyMapAllocator × World :=
  MyMapAllocator.create ⟨[], [], 0⟩ (policyFixed 6 6) 4 4

/-- First node handle for the C2 witness. -/
def c2hn : MyMapAllocator := MyMapAllocator.rebind c2A.1 16 8

/-- Second node handle for the C2 witness, derived from the same origin
by copy and rebind. -/
def c2hn2 : MyMapAllocator :=
  MyMapAllocator.rebind (MyMapAllocator.copy c2A.1) 16 8

/-- The grant through the first C2 handle: three nodes at once. -/
def c2r : Except AllocError Nat × World := MyMapAllocator.allocate c2A.2 c2hn 3

/-- Witness for C2: after a successful grant of 3 through one handle the
shared counter reads 3 through the sibling handle, and a request for 4
more through the sibling fails with AllocationExceeded because
`3 + 4 > 6`, leaving the world unchanged. -/
theorem C2_shared_state_witness :
    stateOf c2r.2 c2hn2 = some ⟨6, 3⟩
    ∧ MyMapAllocator.allocate c2r.2 c2hn2 4 = (.error .allocationExceeded, c2r.2) := by
  have hT := C2_shared_state c2hn c2hn2 16 8 c2A.2 c2r.2 3 24 ⟨6, 0⟩
    rfl rfl rfl (by decide)
  exact ⟨hT.2.2.1, hT.2.2.2 4 (by decide) (by decide) (by decide)⟩

/-- Claim C6: a `push_front`/`push_back` whose node allocation fails
propagates that exact error to the caller and returns the container in
exactly its prior state — same size, same element sequence — because the
failure happens in `create_node`, before any relinking. -/
theorem C6_push_failure_frame {α A S : Type} (I : AllocIface A S)
    (c : MyContainer α A) (s : S) (v : α) (e : AllocError) (s' : S)
    (hfail : I.allocateNode c.node_alloc s = (.error e, s')) :
    MyContainer.push_back I c s v = (.error e, c, s')
    ∧ MyContainer.push_front I c s v = (.error e, c, s') := by
  constructor
  · simp only [MyContainer.push_back, hfail]
  · simp only [MyContainer.push_front, hfail]

/-- Construction used by the C6 witness: a container on an exhausted
`Fixed<1>` allocator, holding one element. -/
def c6A : MyMapAllocator × World :=
  MyMapAllocator.create ⟨[], [], 0⟩ (policyFixed 1 1) 4 4

/-- The C6 container after its single successful push. -/
def c6p1 : Except AllocError Unit × MyContainer Nat MyMapAllocator × World :=
  MyContainer.push_back myIface
    ⟨MyMapAllocator.rebind c6A.1 16 8, [], 0⟩ c6A.2 7

/-- Witness for C6: with the `Fixed<1>` budget exhausted, both
`push_back` and `push_front` fail with AllocationExceeded and return the
container exactly as it was (`[7]`, size 1). -/
theorem C6_push_failure_frame_witness :
    c6p1.2.1.elems = [7] ∧ c6p1.2.1.size = 1
    ∧ MyContainer.push_back myIface c6p1.2.1 c6p1.2.2 8 =
        (.error .allocationExceeded, c6p1.2.1, c6p1.2.2)
    ∧ MyContainer.push_front myIface c6p1.2.1 c6p1.2.2 8 =
        (.error .allocationExceeded, c6p1.2.1, c6p1.2.2) := by
  have hT := C6_push_failure_frame myIface c6p1.2.1 c6p1.2.2 (8 : Nat)
    .allocationExceeded c6p1.2.2 rfl
  exact ⟨rfl, rfl, hT.1, hT.2⟩

/-- Claim C8: swapping containers whose allocator type does not set the
swap-propagation flag and whose allocators compare unequal hits the
`assert(false)` — fail fast, nothing exchanged (`none`); in every other
case swap exchanges the allocator handles and the head/tail/size
pointers wholesale, never touching individual elements (with equal
non-propagating allocators the handles are value-identical, so the
exchanged result is as stated). -/
theorem C8_swap_precondition {α A S : Type} (I : AllocIface A S)
    (c1 c2 : MyContainer α A) :
    (I.pocs = false → I.beq c1.node_alloc c2.node_alloc = false →
      MyContainer.swap I c1 c2 = none)
    ∧ (I.pocs = true →
      MyContainer.swap I c1 c2 =
        some (⟨c2.node_alloc, c2.elems, c2.size⟩,
              ⟨c1.node_alloc, c1.elems, c1.size⟩))
    ∧ (I.pocs = false → c1.node_alloc = c2.node_alloc →
      I.beq c1.node_alloc c2.node_alloc = true →
      MyContainer.swap I c1 c2 =
        some (⟨c2.node_alloc, c2.elems, c2.size⟩,
              ⟨c1.node_alloc, c1.elems, c1.size⟩)) := by
  refine ⟨?_, ?_, ?_⟩
  · intro hpocs hbeq
    simp [MyContainer.swap, hpocs, hbeq]
  · intro hpocs
    simp [MyContainer.swap, hpocs]
  · intro hpocs heq hbeq
    rw [heq] at hbeq
    simp [MyContainer.swap, hpocs, hbeq, heq]

/-- Witness for C8: with a non-propagating allocator and unequal handles
the swap fails fast; with the propagating flag, and with equal handles,
it exchanges allocator and contents. -/
theorem C8_swap_precondition_witness :
    MyContainer.swap (natIface false false) (⟨1, [5], 1⟩ : MyContainer Nat Nat)
      ⟨2, [7], 1⟩ = none
    ∧ MyContainer.swap (natIface false true) (⟨1, [5], 1⟩ : MyContainer Nat Nat)
        ⟨2, [7], 1⟩ = some (⟨2, [7], 1⟩, ⟨1, [5], 1⟩)
    ∧ MyContainer.swap (natIface false false) (⟨1, [5], 1⟩ : MyContainer Nat Nat)
        ⟨1, [7, 9], 2⟩ = some (⟨1, [7, 9], 2⟩, ⟨1, [5], 1⟩) :=
  ⟨(C8_swap_precondition (natIface false false) ⟨1, [5], 1⟩ ⟨2, [7], 1⟩).1
      rfl rfl,
   (C8_swap_precondition (natIface false true) ⟨1, [5], 1⟩ ⟨2, [7], 1⟩).2.1 rfl,
   (C8_swap_precondition (natIface false false) ⟨1, [5], 1⟩ ⟨1, [7, 9], 2⟩).2.2
      rfl rfl rfl⟩

/-- The result of `clear()`: empty chain, `size_` decremented once per
node, allocator untouched. -/
theorem clear_shape {α A S : Type} (I : AllocIface A S)
    (c : MyContainer α A) (s : S) :
    (MyContainer.clear I c s).1.elems = []
    ∧ (MyContainer.clear I c s).1.size = c.size - c.elems.length
    ∧ (MyContainer.clear I c s).1.node_alloc = c.node_alloc := by
  have hloop : ∀ (vs : List α) (size : Nat) (s0 : S) (a : A),
      (MyContainer.clearLoop I a vs size s0).1 = size - vs.length := by
    intro vs
    induction vs with
    | nil => intro size s0 a; simp [MyContainer.clearLoop]
    | cons v vs ih =>
      intro size s0 a
      simp only [MyContainer.clearLoop, ih, List.length_cons]
      omega
  exact ⟨rfl, hloop c.elems c.size s c.node_alloc, rfl⟩

/-- Claim C3 (amended): write `(a, r) = moveOf (source allocator)` for the
moved-to allocator value and the moved-from residual.  (A) When the
moved-to and moved-from allocators compare equal, move construction
transfers head/tail/size in O(1) — the allocator world is untouched, so
no element is reconstructed — and resets the source to canonical Empty
(size 0, empty chain).  (B) When they compare unequal, move construction
moves each element individually (one node allocation per element through
the destination's allocator) and clears the source.  (C) Move assignment
with the move-propagation flag set (the repository allocator's setting)
propagates the allocator and transfers ownership unconditionally —
including when the allocators compare unequal, where the original claim
instead demanded an element-wise move.  (D) Non-propagating move
assignment with equal allocators transfers ownership and resets the
source.  (E) Non-propagating move assignment with unequal allocators
moves element-wise and clears the source. -/
theorem C3_move_semantics {α A S : Type} (I : AllocIface A S)
    (other dst : MyContainer α A) (s : S) :
    (I.beq (I.moveOf other.node_alloc).1 (I.moveOf other.node_alloc).2 = true →
      MyContainer.moveCtor I other s =
        (.ok (), ⟨(I.moveOf other.node_alloc).1, other.elems, other.size⟩,
         ⟨(I.moveOf other.node_alloc).2, [], 0⟩, s))
    ∧ (∀ u dest s',
        I.beq (I.moveOf other.node_alloc).1 (I.moveOf other.node_alloc).2 = false →
        pushBackAll I ⟨(I.moveOf other.node_alloc).1, [], 0⟩ s other.elems =
          (.ok u, dest, s') →
        MyContainer.moveCtor I other s =
          (.ok (), dest,
           (MyContainer.clear I
             ⟨(I.moveOf other.node_alloc).2, other.elems, other.size⟩ s').1,
           (MyContainer.clear I
             ⟨(I.moveOf other.node_alloc).2, other.elems, other.size⟩ s').2)
        ∧ dest.elems = other.elems
        ∧ dest.size = other.elems.length
        ∧ dest.node_alloc = (I.moveOf other.node_alloc).1
        ∧ (MyContainer.clear I
            ⟨(I.moveOf other.node_alloc).2, other.elems, other.size⟩ s').1.elems = [])
    ∧ (I.pocma = true →
        MyContainer.moveAssign I dst other s =
          (.ok (), ⟨(I.moveOf other.node_alloc).1, other.elems, other.size⟩,
           ⟨(I.moveOf other.node_alloc).2, [], 0⟩, (MyContainer.clear I dst s).2))
    ∧ (I.pocma = false → I.beq dst.node_alloc other.node_alloc = true →
        MyContainer.moveAssign I dst other s =
          (.ok (), ⟨dst.node_alloc, other.elems, other.size⟩,
           ⟨other.node_alloc, [], 0⟩, (MyContainer.clear I dst s).2))
    ∧ (∀ u dst' s',
        I.pocma = false → I.beq dst.node_alloc other.node_alloc = false →
        pushBackAll I (MyContainer.clear I dst s).1 (MyContainer.clear I dst s).2
          other.elems = (.ok u, dst', s') →
        MyContainer.moveAssign I dst other s =
          (.ok (), dst', (MyContainer.clear I other s').1,
           (MyContainer.clear I other s').2)
        ∧ dst'.elems = other.elems
        ∧ dst'.node_alloc = dst.node_alloc
        ∧ (MyContainer.clear I other s').1.elems = []) := by
  refine ⟨?_, ?_, ?_, ?_, ?_⟩
  · intro hbeq
    simp [MyContainer.moveCtor, hbeq]
  · intro u dest s' hbeq hpush
    obtain ⟨he, hs, ha⟩ := pushBackAll_ok_shape I other.elems _ s u dest s' hpush
    refine ⟨?_, by simpa using he, by simpa using hs, ha, (clear_shape I _ s').1⟩
    simp only [MyContainer.moveCtor, hbeq, Bool.false_eq_true, if_false, hpush]
  · intro hpocma
    simp [MyContainer.moveAssign, hpocma]
  · intro hpocma hbeq
    have hbeq' : I.beq (MyContainer.clear I dst s).1.node_alloc other.node_alloc = true := by
      rw [(clear_shape I dst s).2.2]
      exact hbeq
    simp [MyContainer.moveAssign, hpocma, hbeq, (clear_shape I dst s).2.2]
  · intro u dst' s' hpocma hbeq hpush
    obtain ⟨he, hs, ha⟩ := pushBackAll_ok_shape I other.elems _ _ u dst' s' hpush
    have hcl := clear_shape I dst s
    refine ⟨?_, ?_, ?_, (clear_shape I other s').1⟩
    · simp only [MyContainer.moveAssign, hpocma, hbeq, Bool.false_eq_true, if_false,
        hpush]
    · rw [he, hcl.1]
      simp
    · rw [ha, hcl.2.2]

/-- First C3 allocator (`Fixed<6>`, `int` elements), freshly created. -/
def c3A : MyMapAllocator × World :=
  MyMapAllocator.create ⟨[], [], 0⟩ (policyFixed 6 6) 4 4

/-- Node rebind of the first C3 allocator. -/
def c3hnA : MyMapAllocator := MyMapAllocator.rebind c3A.1 16 8

/-- Second, independent C3 allocator (unequal to the first). -/
def c3B : MyMapAllocator × World :=
  MyMapAllocator.create c3A.2 (policyFixed 6 6) 4 4

/-- Node rebind of the second C3 allocator. -/
def c3hnB : MyMapAllocator := MyMapAllocator.rebind c3B.1 16 8

/-- Container on the first C3 allocator after pushing 10. -/
def c3p1 : Except AllocError Unit × MyContainer Nat MyMapAllocator × World :=
  MyContainer.push_back myIface ⟨c3hnA, [], 0⟩ c3B.2 10

/-- Container on the second C3 allocator after pushing 20. -/
def c3p2 : Except AllocError Unit × MyContainer Nat MyMapAllocator × World :=
  MyContainer.push_back myIface ⟨c3hnB, [], 0⟩ c3p1.2.2 20

/-- Container on the second C3 allocator after pushing 20 and 30. -/
def c3p3 : Except AllocError Unit × MyContainer Nat MyMapAllocator × World :=
  MyContainer.push_back myIface c3p2.2.1 c3p2.2.2 30

/-- The move assignment of the C3 counterexample: destination on
allocator A, source on the unequal allocator B. -/
def c3r : Except AllocError Unit × MyContainer Nat MyMapAllocator ×
    MyContainer Nat MyMapAllocator × World :=
  MyContainer.moveAssign myIface c3p1.2.1 c3p3.2.1 c3p3.2.2

/-- Counterexample to C3 as stated: the repository allocator sets
`propagate_on_container_move_assignment`, so move-assigning between
containers whose allocators compare unequal does NOT move each element
individually — it propagates the source allocator and transfers
ownership: the destination ends up with the source's chain and the
source's (moved) allocator, and the allocator world is bit-for-bit
unchanged (an element-wise move would have performed two node
allocations, raising the destination allocator's shared counter). -/
theorem C3_pocma_steal_cex :
    myIface.beq c3p1.2.1.node_alloc c3p3.2.1.node_alloc = false
    ∧ c3p1.2.1.elems = [10] ∧ c3p3.2.1.elems = [20, 30]
    ∧ c3r = (.ok (), ⟨(myIface.moveOf c3hnB).1, [20, 30], 2⟩,
        ⟨(myIface.moveOf c3hnB).2, [], 0⟩, c3p3.2.2)
    ∧ c3r.2.2.2 = c3p3.2.2
    ∧ stateOf c3r.2.2.2 c3hnA = some ⟨6, 1⟩
    ∧ stateOf c3r.2.2.2 c3hnB = some ⟨6, 2⟩
    ∧ c3r.2.1.node_alloc.arenaRef = c3hnB.arenaRef := by
  exact ⟨rfl, rfl, rfl, rfl, rfl, rfl, rfl, rfl⟩

/-- The element-wise move-construction run of the C3 witness: pushing the
source's elements through the moved allocator value. -/
def c3q : Except AllocError Unit × MyContainer Nat MyMapAllocator × World :=
  pushBackAll myIface ⟨(myIface.moveOf c3p3.2.1.node_alloc).1, [], 0⟩
    c3p3.2.2 c3p3.2.1.elems

/-- Witness for C3, exercising every branch at concrete inputs:
(A) a value-preserving allocator (`natIface`) makes the moved pair
compare equal and move construction is an O(1) transfer with the world
untouched; (B) the repository allocator's `shared_ptr`-nulling move makes
the pair compare unequal, so move construction re-pushes both elements
(the shared counter grows from 2 to 4) and clears the source;
(C) propagating move assignment transfers ownership; (D) non-propagating
move assignment with equal allocators transfers ownership; (E)
non-propagating move assignment with unequal allocators moves
element-wise. -/
theorem C3_move_semantics_witness :
    MyContainer.moveCtor (natIface true true) (⟨1, [3, 4], 2⟩ : MyContainer Nat Nat) 0 =
      (.ok (), ⟨1, [3, 4], 2⟩, ⟨1, [], 0⟩, 0)
    ∧ (MyContainer.moveCtor myIface c3p3.2.1 c3p3.2.2 =
        (.ok (), c3q.2.1,
         (MyContainer.clear myIface
           ⟨(myIface.moveOf c3p3.2.1.node_alloc).2, c3p3.2.1.elems, c3p3.2.1.size⟩
           c3q.2.2).1,
         (MyContainer.clear myIface
           ⟨(myIface.moveOf c3p3.2.1.node_alloc).2, c3p3.2.1.elems, c3p3.2.1.size⟩
           c3q.2.2).2)
       ∧ c3q.2.1.elems = c3p3.2.1.elems
       ∧ stateOf c3q.2.2 c3hnB = some ⟨6, 4⟩)
    ∧ MyContainer.moveAssign (natIface true true) (⟨1, [9], 1⟩ : MyContainer Nat Nat)
        ⟨2, [7, 8], 2⟩ 5 = (.ok (), ⟨2, [7, 8], 2⟩, ⟨2, [], 0⟩, 5)
    ∧ MyContainer.moveAssign (natIface false false) (⟨1, [9], 1⟩ : MyContainer Nat Nat)
        ⟨1, [7], 1⟩ 5 = (.ok (), ⟨1, [7], 1⟩, ⟨1, [], 0⟩, 5)
    ∧ MyContainer.moveAssign (natIface false false) (⟨1, [9], 1⟩ : MyContainer Nat Nat)
        ⟨2, [7, 8], 2⟩ 5 = (.ok (), ⟨1, [7, 8], 2⟩, ⟨2, [], 0⟩, 7) := by
  refine ⟨?_, ⟨?_, ?_, rfl⟩, ?_, ?_, ?_⟩
  · exact (C3_move_semantics (natIface true true) ⟨1, [3, 4], 2⟩ ⟨0, [], 0⟩ 0).1 rfl
  · exact ((C3_move_semantics myIface c3p3.2.1 c3p3.2.1 c3p3.2.2).2.1
      () c3q.2.1 c3q.2.2 rfl rfl).1
  · exact ((C3_move_semantics myIface c3p3.2.1 c3p3.2.1 c3p3.2.2).2.1
      () c3q.2.1 c3q.2.2 rfl rfl).2.1
  · exact (C3_move_semantics (natIface true true) ⟨2, [7, 8], 2⟩ ⟨1, [9], 1⟩ 5).2.2.1 rfl
  · exact (C3_move_semantics (natIface false false) ⟨1, [7], 1⟩ ⟨1, [9], 1⟩ 5).2.2.2.1
      rfl rfl
  · exact ((C3_move_semantics (natIface false false) ⟨2, [7, 8], 2⟩ ⟨1, [9], 1⟩ 5).2.2.2.2
      () ⟨1, [7, 8], 2⟩ 7 rfl rfl rfl).1
